import Mathlib

/-!
Verification development for the bright-image-tweaker Chrome extension.

The repository has two components:
* the editor page (`src/tool.js`, and the exposure-free variant
  `src/unnamed/part_000`): a per-pixel brightness/contrast/exposure filter over
  canvas image data plus zoom/pan view state;
* the background service worker (`src/background.js`, and the variant
  `src/unnamed/part_001`): an in-memory key → image-record store with a
  time-based sweep, and tracking of at most one editor ("tool") tab.

Modelling conventions:
* JS `number` (IEEE double) arithmetic is idealised as exact real arithmetic
  over `ℝ`; slider values are integers (`parseInt`), so they are `ℤ`.
  `Math.pow(2, exposure / 50)` becomes a real power (`Real.rpow`).
* A pixel buffer (`ImageData.data`, a `Uint8ClampedArray` of length
  `4 * width * height`) is a `List ℝ` whose entries are read in groups of
  four (r, g, b, alpha), exactly like the `for (i; i < data.length; i += 4)`
  loop.  The implicit rounding a real `Uint8ClampedArray` performs on store
  is not modelled; the claims proved here are insensitive to per-channel
  rounding.  A list whose length is not a multiple of 4 has its trailing
  partial group left untouched (the JS loop guard `i < data.length` combined
  with `ImageData` always supplying a multiple of 4 means this case never
  arises in the program).
* Timestamps (`Date.now()`) are `ℕ` milliseconds.  `Date.now() - 3600000` is
  `ℕ` truncated subtraction; for timestamps within the first hour of the
  epoch JS would compare against a negative bound and purge nothing, and
  truncated subtraction compares against `0` and also purges nothing, so the
  two agree on all `ℕ` inputs.
* The store key `Date.now().toString()` is modelled as the `ℕ` timestamp
  itself (`Nat.toString` is injective, so nothing is lost).
* Chrome tab ids are `ℕ`.  `chrome.tabs.get` / the `url.includes('tool.html')`
  check are modelled by an explicit environment (`TabEnv`) of oracles, and
  the observable actions of the worker (sending `loadNewImage`, focusing a
  tab, creating a tab) are recorded as an explicit effect list.
-/

namespace BrightTweaker

/-! ## Filter math (src/tool.js lines 249-276, src/unnamed/part_000 lines 162-183) -/

noncomputable section

/-- `Math.max(0, Math.min(255, x))`: the final per-channel clamp. -/
def clamp (x : ℝ) : ℝ := max 0 (min 255 x)

/-- `(259 * (contrast + 255)) / (255 * (259 - contrast))` from `applyFilters`. -/
def contrastFactor (contrast : ℤ) : ℝ :=
  (259 * ((contrast : ℝ) + 255)) / (255 * (259 - (contrast : ℝ)))

/-- `Math.pow(2, exposure / 50)` from `applyFilters` in src/tool.js. -/
def exposureFactor (exposure : ℤ) : ℝ := (2 : ℝ) ^ ((exposure : ℝ) / 50)

/-- The body of the `applyFilters` loop of src/tool.js for one colour channel:
brightness is added, then the contrast formula is applied, then the result is
multiplied by the exposure factor, then clamped to `[0, 255]`. -/
def applyFiltersChannel (brightness contrast exposure : ℤ) (v : ℝ) : ℝ :=
  let r1 := v + (brightness : ℝ)
  let r2 := contrastFactor contrast * (r1 - 128) + 128
  let r3 := r2 * exposureFactor exposure
  clamp r3

/-- `applyFilters` of src/tool.js on the flat `data` array: each group of four
entries has its first three (r, g, b) transformed by `applyFiltersChannel` and
its fourth (alpha) left unchanged. -/
def applyFilters (brightness contrast exposure : ℤ) : List ℝ → List ℝ
  | r :: g :: b :: a :: rest =>
      applyFiltersChannel brightness contrast exposure r ::
      applyFiltersChannel brightness contrast exposure g ::
      applyFiltersChannel brightness contrast exposure b ::
      a :: applyFilters brightness contrast exposure rest
  | rest => rest

/-- The loop body of `applyFilters` in src/unnamed/part_000 (the variant with
no exposure slider): brightness is added, then contrast, then the clamp. -/
def applyFiltersChannelBC (brightness contrast : ℤ) (v : ℝ) : ℝ :=
  let r1 := v + (brightness : ℝ)
  let r2 := contrastFactor contrast * (r1 - 128) + 128
  clamp r2

/-- `applyFilters` of src/unnamed/part_000 on the flat `data` array. -/
def applyFiltersBC (brightness contrast : ℤ) : List ℝ → List ℝ
  | r :: g :: b :: a :: rest =>
      applyFiltersChannelBC brightness contrast r ::
      applyFiltersChannelBC brightness contrast g ::
      applyFiltersChannelBC brightness contrast b ::
      a :: applyFiltersBC brightness contrast rest
  | rest => rest

/-- The brightness stage in isolation: `v + brightness`. -/
def applyBrightness (brightness : ℤ) (v : ℝ) : ℝ := v + (brightness : ℝ)

/-- The contrast stage in isolation: `factor * (v - 128) + 128`. -/
def applyContrast (contrast : ℤ) (v : ℝ) : ℝ :=
  contrastFactor contrast * (v - 128) + 128

/-- The exposure stage in isolation: `v * Math.pow(2, exposure / 50)`. -/
def applyExposure (exposure : ℤ) (v : ℝ) : ℝ := v * exposureFactor exposure

/-- Modelled from the spec (for comparison only; this is NOT the code): the
per-channel transform in the stage order the specification states, namely
exposure first, then brightness, then contrast, then the final clamp. -/
def applyFiltersSpecOrderChannel (brightness contrast exposure : ℤ) (v : ℝ) : ℝ :=
  clamp (applyContrast contrast (applyBrightness brightness (applyExposure exposure v)))

/-- Modelled from the spec (for comparison only; this is NOT the code): the
spec-ordered transform mapped over the flat `data` array, alpha untouched. -/
def applyFiltersSpecOrder (brightness contrast exposure : ℤ) : List ℝ → List ℝ
  | r :: g :: b :: a :: rest =>
      applyFiltersSpecOrderChannel brightness contrast exposure r ::
      applyFiltersSpecOrderChannel brightness contrast exposure g ::
      applyFiltersSpecOrderChannel brightness contrast exposure b ::
      a :: applyFiltersSpecOrder brightness contrast exposure rest
  | rest => rest

/-! ## Editor session state (src/tool.js, class BrightnessTool) -/

/-- The state of the editor page that the claims are about: the captured
original pixel buffer (`this.originalImageData`, `none` while no image has
loaded), the canvas content after the last `putImageData` (`displayData`),
the three filter sliders (`parseInt` values), the zoom slider (`parseFloat`
value) and the zoom/pan view fields. -/
structure ToolState where
  originalImageData : Option (List ℝ)
  displayData : List ℝ
  brightnessSlider : ℤ
  contrastSlider : ℤ
  exposureSlider : ℤ
  zoomSlider : ℝ
  zoomLevel : ℝ
  panX : ℝ
  panY : ℝ

/-- `updateZoom` of src/tool.js: re-reads the zoom slider into
`this.zoomLevel` and re-applies the CSS transform (the transform itself is
presentation-only and carries no further state). -/
def updateZoom (s : ToolState) : ToolState := { s with zoomLevel := s.zoomSlider }

/-- `updateImage` of src/tool.js: if no original buffer is captured it
returns immediately; otherwise it copies the original buffer, applies
`applyFilters` with the current slider values, puts the result on the canvas
and calls `updateZoom`. -/
def updateImage (s : ToolState) : ToolState :=
  match s.originalImageData with
  | none => s
  | some orig =>
      updateZoom { s with
        displayData :=
          applyFilters s.brightnessSlider s.contrastSlider s.exposureSlider orig }

/-- The `img.onload` body of `loadImage` in src/tool.js: resets zoom and pan,
draws the decoded image on the canvas, captures it as the original buffer,
and runs the initial `updateImage`. -/
def loadImage (img : List ℝ) (s : ToolState) : ToolState :=
  updateImage { s with
    originalImageData := some img
    displayData := img
    zoomSlider := 1
    zoomLevel := 1
    panX := 0
    panY := 0 }

/-- A slider `input` event on the brightness slider: the handler calls
`updateImage`, which reads the new value. -/
def setBrightness (v : ℤ) (s : ToolState) : ToolState :=
  updateImage { s with brightnessSlider := v }

/-- A slider `input` event on the contrast slider. -/
def setContrast (v : ℤ) (s : ToolState) : ToolState :=
  updateImage { s with contrastSlider := v }

/-- A slider `input` event on the exposure slider. -/
def setExposure (v : ℤ) (s : ToolState) : ToolState :=
  updateImage { s with exposureSlider := v }

/-- A slider `input` event on the zoom slider: the handler calls
`updateZoom`, which reads the new value into `zoomLevel`. -/
def setZoomSlider (v : ℝ) (s : ToolState) : ToolState :=
  updateZoom { s with zoomSlider := v }

/-- `handleWheel` of src/tool.js.  `deltaYPos` is `e.deltaY > 0` (so the step
is `-0.1`), `mouseX`/`mouseY` are the cursor position relative to the canvas.
The new zoom is the old zoom plus the step, clamped by
`Math.max(0.5, Math.min(3, _))`; the pan is recomputed around the cursor; the
zoom slider is set and `updateZoom` runs. -/
def handleWheel (deltaYPos : Bool) (mouseX mouseY : ℝ) (s : ToolState) : ToolState :=
  let delta : ℝ := if deltaYPos then -0.1 else 0.1
  let newZoom := max 0.5 (min 3 (s.zoomLevel + delta))
  let zoomFactor := newZoom / s.zoomLevel
  updateZoom { s with
    panX := mouseX - (mouseX - s.panX) * zoomFactor
    panY := mouseY - (mouseY - s.panY) * zoomFactor
    zoomLevel := newZoom
    zoomSlider := newZoom }

/-- One `mousemove` step of the click-drag pan (`handleMouseMove` with
`isDragging` true): the mouse delta is added to the pan and `updateZoom`
re-applies the transform. -/
def dragBy (dx dy : ℝ) (s : ToolState) : ToolState :=
  updateZoom { s with panX := s.panX + dx, panY := s.panY + dy }

/-- `resetAll` of src/tool.js: all three filter sliders back to 0, zoom
slider to 1, zoom/pan state to `(1, 0, 0)`, then `updateImage`. -/
def resetAll (s : ToolState) : ToolState :=
  updateImage { s with
    brightnessSlider := 0
    contrastSlider := 0
    exposureSlider := 0
    zoomSlider := 1
    zoomLevel := 1
    panX := 0
    panY := 0 }

/-- The brightness / contrast / exposure / zoom / pan user events that can
occur between a load and a reset. -/
inductive EditorAction where
  | setBrightness (v : ℤ)
  | setContrast (v : ℤ)
  | setExposure (v : ℤ)
  | setZoomSlider (v : ℝ)
  | wheel (deltaYPos : Bool) (mouseX mouseY : ℝ)
  | drag (dx dy : ℝ)

/-- Dispatch one editor event to its handler. -/
def applyAction (a : EditorAction) (s : ToolState) : ToolState :=
  match a with
  | .setBrightness v => setBrightness v s
  | .setContrast v => setContrast v s
  | .setExposure v => setExposure v s
  | .setZoomSlider v => setZoomSlider v s
  | .wheel d mx my => handleWheel d mx my s
  | .drag dx dy => dragBy dx dy s

/-- Run a sequence of editor events. -/
def applyActions (l : List EditorAction) (s : ToolState) : ToolState :=
  l.foldl (fun st a => applyAction a st) s

/-- The constructor state of `BrightnessTool`: no image, blank canvas, slider
defaults (0 for the filters, 1 for zoom), `zoomLevel = 1`, pan `(0, 0)`. -/
def initialToolState : ToolState :=
  { originalImageData := none
    displayData := []
    brightnessSlider := 0
    contrastSlider := 0
    exposureSlider := 0
    zoomSlider := 1
    zoomLevel := 1
    panX := 0
    panY := 0 }

/-- A fresh load: a new editor page with default parameters receiving `img`. -/
def freshLoad (img : List ℝ) : ToolState := loadImage img initialToolState

/-- Run a sequence of wheel events (direction flag and cursor position). -/
def applyWheels (ws : List (Bool × ℝ × ℝ)) (s : ToolState) : ToolState :=
  ws.foldl (fun st w => handleWheel w.1 w.2.1 w.2.2 st) s

end

/-! ## Image relay (src/background.js, src/unnamed/part_001) -/

/-- One entry of `imageDataStore`: the base64 payload, the id of the tab the
context menu was clicked in, and the creation timestamp. -/
structure ImageRecord where
  base64 : String
  sourceTabId : ℕ
  timestamp : ℕ
deriving DecidableEq

/-- The service worker's mutable state: the `imageDataStore` map (modelled as
an association list with unique keys, insertion-ordered like a JS `Map`) and
the tracked tool tab id (`null` modelled as `none`). -/
structure RelayState where
  store : List (ℕ × ImageRecord)
  toolTabId : Option ℕ
deriving DecidableEq

/-- `imageDataStore.get(key)`. -/
def lookupStore : List (ℕ × ImageRecord) → ℕ → Option ImageRecord
  | [], _ => none
  | (k, r) :: rest, key => if k = key then some r else lookupStore rest key

/-- `imageDataStore.set(key, rec)`: replace an existing binding in place, or
append a new one (JS `Map` insertion-order semantics). -/
def insertStore : List (ℕ × ImageRecord) → ℕ → ImageRecord → List (ℕ × ImageRecord)
  | [], key, rec => [(key, rec)]
  | (k, r) :: rest, key, rec =>
      if k = key then (key, rec) :: rest else (k, r) :: insertStore rest key rec

/-- `imageDataStore.delete(key)` (keys are unique, so removing every binding
of `key` coincides with the JS `Map` behaviour). -/
def eraseStore : List (ℕ × ImageRecord) → ℕ → List (ℕ × ImageRecord)
  | [], _ => []
  | (k, r) :: rest, key =>
      if k = key then eraseStore rest key else (k, r) :: eraseStore rest key

/-- The clean-up sweep in the context-menu handler: delete every entry with
`timestamp < now - 3600000` (one hour). -/
def purgeStore : List (ℕ × ImageRecord) → ℕ → List (ℕ × ImageRecord)
  | [], _ => []
  | (k, r) :: rest, now =>
      if r.timestamp < now - 3600000 then purgeStore rest now
      else (k, r) :: purgeStore rest now

/-- The response the worker sends back to a `ready` message. -/
inductive ReadyResponse where
  | success (base64 : String) (sourceTabId : ℕ)
  | failure (error : String)
deriving DecidableEq

/-- The observable tab-side effects of handling a context-menu click:
`chrome.tabs.sendMessage(tab, loadNewImage ...)`, `chrome.tabs.update(tab,
{active: true})`, and `chrome.tabs.create(tool.html?imageKey=..&fromTab=..)`. -/
inductive Effect where
  | sentLoadNewImage (tabId imageKey sourceTabId : ℕ)
  | focusedTab (tabId : ℕ)
  | createdTab (tabId imageKey fromTab : ℕ)
deriving DecidableEq

/-- The browser facts the worker probes while routing: whether
`chrome.tabs.get t` succeeds (`alive`), whether the tab's URL contains
`tool.html` (`isToolUrl`), and the id a `chrome.tabs.create` would return. -/
structure TabEnv where
  alive : ℕ → Bool
  isToolUrl : ℕ → Bool
  newTabId : ℕ

/-- Lines 58-86 of src/background.js: if a tool tab is tracked, probe it; if
it is live and still on `tool.html`, send it `loadNewImage` and focus it;
otherwise (probe threw, clearing `toolTabId`, or the URL check failed) create
a fresh tool tab and track its id. -/
def routeImage (env : TabEnv) (imageKey srcTab : ℕ) (s : RelayState) :
    RelayState × List Effect :=
  match s.toolTabId with
  | some t =>
      if env.alive t then
        if env.isToolUrl t then
          (s, [Effect.sentLoadNewImage t imageKey srcTab, Effect.focusedTab t])
        else
          ({ s with toolTabId := some env.newTabId },
            [Effect.createdTab env.newTabId imageKey srcTab])
      else
        ({ s with toolTabId := some env.newTabId },
          [Effect.createdTab env.newTabId imageKey srcTab])
  | none =>
      ({ s with toolTabId := some env.newTabId },
        [Effect.createdTab env.newTabId imageKey srcTab])

/-- The context-menu registration (src/background.js lines 42-86) after the
image bytes have been fetched and encoded: store the record under the key
`Date.now()`, run the one-hour sweep, then route the key to a tool tab. -/
def registerImage (env : TabEnv) (now srcTab : ℕ) (base64 : String) (s : RelayState) :
    RelayState × List Effect :=
  let swept := purgeStore (insertStore s.store now
    { base64 := base64, sourceTabId := srcTab, timestamp := now }) now
  routeImage env now srcTab { s with store := swept }

/-- The `ready` branch of the message listener (src/background.js lines
96-114): look the key up; on a hit answer with the payload and source tab and
delete the entry; on a miss answer `success: false` with the fixed reason. -/
def handleReady (imageKey : ℕ) (s : RelayState) : RelayState × ReadyResponse :=
  match lookupStore s.store imageKey with
  | some rec =>
      ({ s with store := eraseStore s.store imageKey },
        ReadyResponse.success rec.base64 rec.sourceTabId)
  | none => (s, ReadyResponse.failure "Image data not found or expired")

/-- `countCreatedTabs effs` counts the `chrome.tabs.create` calls recorded in
an effect list. -/
def countCreatedTabs (effs : List Effect) : ℕ :=
  (effs.filter fun e =>
    match e with
    | Effect.createdTab _ _ _ => true
    | _ => false).length

/-! ## Lemmas about the filter math -/

theorem clamp_nonneg (x : ℝ) : 0 ≤ clamp x := le_max_left 0 _

theorem clamp_le (x : ℝ) : clamp x ≤ 255 := max_le (by norm_num) (min_le_left 255 x)

theorem clamp_eq_self {x : ℝ} (h0 : 0 ≤ x) (h255 : x ≤ 255) : clamp x = x := by
  unfold clamp
  rw [min_eq_right h255, max_eq_right h0]

theorem contrastFactor_zero : contrastFactor 0 = 1 := by
  unfold contrastFactor
  norm_num

theorem exposureFactor_zero : exposureFactor 0 = 1 := by
  unfold exposureFactor
  rw [show (((0 : ℤ) : ℝ) / 50) = 0 by norm_num, Real.rpow_zero]

theorem exposureFactor_fifty : exposureFactor 50 = 2 := by
  unfold exposureFactor
  rw [show (((50 : ℤ) : ℝ) / 50) = 1 by norm_num, Real.rpow_one]

theorem applyFiltersChannel_mem (b c e : ℤ) (v : ℝ) :
    0 ≤ applyFiltersChannel b c e v ∧ applyFiltersChannel b c e v ≤ 255 :=
  ⟨clamp_nonneg _, clamp_le _⟩

theorem applyFiltersChannel_zero {v : ℝ} (h0 : 0 ≤ v) (h255 : v ≤ 255) :
    applyFiltersChannel 0 0 0 v = v := by
  show clamp ((contrastFactor 0 * (v + ((0 : ℤ) : ℝ) - 128) + 128) * exposureFactor 0) = v
  rw [contrastFactor_zero, exposureFactor_zero,
    show (1 * (v + ((0 : ℤ) : ℝ) - 128) + 128) * 1 = v by push_cast; ring]
  exact clamp_eq_self h0 h255

theorem applyFilters_length (b c e : ℤ) : ∀ data : List ℝ,
    (applyFilters b c e data).length = data.length
  | [] => rfl
  | [_] => rfl
  | [_, _] => rfl
  | [_, _, _] => rfl
  | r :: g :: bl :: a :: rest => by
      show (applyFiltersChannel b c e r :: applyFiltersChannel b c e g ::
        applyFiltersChannel b c e bl :: a :: applyFilters b c e rest).length =
        (r :: g :: bl :: a :: rest).length
      simp [applyFilters_length b c e rest]

/-- Claim C1 (corrected; counterexample): at brightness `-50`, contrast `0`,
exposure `50` and the pixel `(100, 100, 100, 255)`, the stage order the spec
states (exposure, then brightness, then contrast) produces `150` per colour
channel, while the code's `applyFilters` produces `100` — so `applyFilters`
does not apply exposure first. -/
theorem applyFilters_spec_order_counterexample :
    applyFiltersSpecOrder (-50) 0 50 [100, 100, 100, 255] ≠
      applyFilters (-50) 0 50 [100, 100, 100, 255] := by
  have hch : applyFiltersChannel (-50) 0 50 100 = 100 := by
    show clamp ((contrastFactor 0 * ((100 : ℝ) + ((-50 : ℤ) : ℝ) - 128) + 128) *
      exposureFactor 50) = 100
    rw [contrastFactor_zero, exposureFactor_fifty,
      show (1 * ((100 : ℝ) + ((-50 : ℤ) : ℝ) - 128) + 128) * 2 = 100 by push_cast; ring]
    exact clamp_eq_self (by norm_num) (by norm_num)
  have hsp : applyFiltersSpecOrderChannel (-50) 0 50 100 = 150 := by
    unfold applyFiltersSpecOrderChannel applyExposure applyBrightness applyContrast
    rw [contrastFactor_zero, exposureFactor_fifty,
      show (1 : ℝ) * ((100 : ℝ) * 2 + ((-50 : ℤ) : ℝ) - 128) + 128 = 150 by push_cast; ring]
    exact clamp_eq_self (by norm_num) (by norm_num)
  have hcode : applyFilters (-50) 0 50 [100, 100, 100, 255] = [100, 100, 100, 255] := by
    show applyFiltersChannel (-50) 0 50 100 :: applyFiltersChannel (-50) 0 50 100 ::
      applyFiltersChannel (-50) 0 50 100 :: (255 : ℝ) :: applyFilters (-50) 0 50 [] =
      [100, 100, 100, 255]
    rw [hch]
    rfl
  have hspec : applyFiltersSpecOrder (-50) 0 50 [100, 100, 100, 255] =
      [150, 150, 150, 255] := by
    show applyFiltersSpecOrderChannel (-50) 0 50 100 ::
      applyFiltersSpecOrderChannel (-50) 0 50 100 ::
      applyFiltersSpecOrderChannel (-50) 0 50 100 ::
      (255 : ℝ) :: applyFiltersSpecOrder (-50) 0 50 [] = [150, 150, 150, 255]
    rw [hsp]
    rfl
  intro h
  rw [hspec, hcode] at h
  simp only [List.cons.injEq] at h
  exact absurd h.1 (by norm_num)

/-- Claim C1 (amended): for every pixel and every parameter triple,
`applyFilters` transforms the red, green and blue channels and leaves alpha
untouched, in the fixed stage order brightness first, then contrast, then
exposure, then the clamp (and brightness-then-contrast in the variant without
exposure); each stage is a deterministic function of its single parameter. -/
theorem applyFilters_stage_decomposition :
    (∀ (b c e : ℤ) (r g bl a : ℝ) (rest : List ℝ),
        applyFilters b c e (r :: g :: bl :: a :: rest) =
          clamp (applyExposure e (applyContrast c (applyBrightness b r))) ::
          clamp (applyExposure e (applyContrast c (applyBrightness b g))) ::
          clamp (applyExposure e (applyContrast c (applyBrightness b bl))) ::
          a :: applyFilters b c e rest) ∧
    (∀ (b c : ℤ) (r g bl a : ℝ) (rest : List ℝ),
        applyFiltersBC b c (r :: g :: bl :: a :: rest) =
          clamp (applyContrast c (applyBrightness b r)) ::
          clamp (applyContrast c (applyBrightness b g)) ::
          clamp (applyContrast c (applyBrightness b bl)) ::
          a :: applyFiltersBC b c rest) :=
  ⟨fun _ _ _ _ _ _ _ _ => rfl, fun _ _ _ _ _ _ _ => rfl⟩

/-- Claim C2: every red, green or blue channel value produced by
`applyFilters` lies in `[0, 255]`, for all brightness, contrast and exposure
values (hence in particular for all values inside the slider ranges) and
every input buffer of well-formed (multiple-of-four) length. -/
theorem applyFilters_channel_range : ∀ (b c e : ℤ) (data : List ℝ),
    data.length % 4 = 0 → ∀ i : ℕ, i < (applyFilters b c e data).length → i % 4 ≠ 3 →
    0 ≤ (applyFilters b c e data).getD i 0 ∧ (applyFilters b c e data).getD i 0 ≤ 255
  | _, _, _, [], _, i, hi, _ => by simp [applyFilters] at hi
  | _, _, _, [_], h4, _, _, _ => by simp at h4
  | _, _, _, [_, _], h4, _, _, _ => by simp at h4
  | _, _, _, [_, _, _], h4, _, _, _ => by simp at h4
  | b, c, e, r :: g :: bl :: a :: rest, h4, i, hi, hna => by
      have h4r : rest.length % 4 = 0 := by
        simp only [List.length_cons] at h4
        omega
      have hi4 : i < 4 + rest.length := by
        rw [applyFilters_length] at hi
        simp only [List.length_cons] at hi
        omega
      have hgoal : (applyFilters b c e (r :: g :: bl :: a :: rest)).getD i 0 =
          (applyFiltersChannel b c e r :: applyFiltersChannel b c e g ::
            applyFiltersChannel b c e bl :: a :: applyFilters b c e rest).getD i 0 := rfl
      rw [hgoal]
      rcases i with _ | (_ | (_ | (_ | j)))
      · simpa using applyFiltersChannel_mem b c e r
      · simpa using applyFiltersChannel_mem b c e g
      · simpa using applyFiltersChannel_mem b c e bl
      · exact absurd (by norm_num) hna
      · have hj : j < (applyFilters b c e rest).length := by
          rw [applyFilters_length]
          omega
        have hjna : j % 4 ≠ 3 := by omega
        simpa using applyFilters_channel_range b c e rest h4r j hj hjna

/-- Witness for claim C2 at brightness 300, contrast 100, exposure 50 and the
pixel `(10, 20, 30, 40)`, channel index 0. -/
theorem applyFilters_channel_range_witness :
    0 ≤ (applyFilters 300 100 50 [10, 20, 30, 40]).getD 0 0 ∧
      (applyFilters 300 100 50 [10, 20, 30, 40]).getD 0 0 ≤ 255 :=
  applyFilters_channel_range 300 100 50 [10, 20, 30, 40] (by norm_num) 0
    (by rw [applyFilters_length]; norm_num) (by norm_num)

/-- Claim C5: `applyFilters` with brightness 0, contrast 0 and exposure 0 is
the identity on every buffer whose entries lie in `[0, 255]` (the contrast
factor is exactly 1 at contrast 0 and the exposure factor is exactly
`2 ^ 0 = 1` at exposure 0). -/
theorem applyFilters_zero_identity : ∀ data : List ℝ,
    (∀ v ∈ data, 0 ≤ v ∧ v ≤ 255) → applyFilters 0 0 0 data = data
  | [], _ => rfl
  | [_], _ => rfl
  | [_, _], _ => rfl
  | [_, _, _], _ => rfl
  | r :: g :: bl :: a :: rest, h => by
      have hr := h r (by simp)
      have hg := h g (by simp)
      have hb := h bl (by simp)
      have hrest : ∀ v ∈ rest, 0 ≤ v ∧ v ≤ 255 := fun v hv => h v (by simp [hv])
      show applyFiltersChannel 0 0 0 r :: applyFiltersChannel 0 0 0 g ::
        applyFiltersChannel 0 0 0 bl :: a :: applyFilters 0 0 0 rest =
        r :: g :: bl :: a :: rest
      rw [applyFiltersChannel_zero hr.1 hr.2, applyFiltersChannel_zero hg.1 hg.2,
        applyFiltersChannel_zero hb.1 hb.2, applyFilters_zero_identity rest hrest]

/-- Witness for claim C5 on the pixel `(100, 200, 30, 255)`. -/
theorem applyFilters_zero_identity_witness :
    applyFilters 0 0 0 [100, 200, 30, 255] = [100, 200, 30, 255] :=
  applyFilters_zero_identity [100, 200, 30, 255] (by
    intro v hv
    simp only [List.mem_cons, List.not_mem_nil, or_false] at hv
    rcases hv with rfl | rfl | rfl | rfl <;> norm_num)

/-! ## Lemmas about the editor session state -/

theorem updateImage_originalImageData (s : ToolState) :
    (updateImage s).originalImageData = s.originalImageData := by
  unfold updateImage
  split <;> rfl

theorem applyAction_originalImageData (a : EditorAction) (s : ToolState) :
    (applyAction a s).originalImageData = s.originalImageData := by
  cases a <;>
    simp [applyAction, setBrightness, setContrast, setExposure, setZoomSlider,
      handleWheel, dragBy, updateZoom, updateImage_originalImageData]

theorem applyActions_originalImageData : ∀ (l : List EditorAction) (s : ToolState),
    (applyActions l s).originalImageData = s.originalImageData
  | [], _ => rfl
  | a :: l, s => by
      show (applyActions l (applyAction a s)).originalImageData = _
      rw [applyActions_originalImageData l (applyAction a s),
        applyAction_originalImageData]

theorem resetAll_of_original (s : ToolState) (img : List ℝ)
    (h : s.originalImageData = some img) : resetAll s = freshLoad img := by
  obtain ⟨o, d, bs, cs, es, zs, zl, px, py⟩ := s
  simp only at h
  subst h
  rfl

theorem freshLoad_originalImageData (img : List ℝ) :
    (freshLoad img).originalImageData = some img := rfl

theorem freshLoad_zoomLevel (img : List ℝ) : (freshLoad img).zoomLevel = 1 := rfl

/-- Claim C6: for every loaded image and every sequence of
brightness/contrast/exposure/zoom/pan events, `resetAll` afterwards produces
exactly the state of a fresh load of the same image with default parameters —
in particular the same displayed pixel buffer and the same view transform
(zoom 1, pan `(0, 0)`). -/
theorem resetAll_eq_freshLoad (img : List ℝ) (ops : List EditorAction) :
    resetAll (applyActions ops (freshLoad img)) = freshLoad img :=
  resetAll_of_original _ img
    (by rw [applyActions_originalImageData, freshLoad_originalImageData])

/-- Claim C7: the display recomputation never touches the original buffer and
never reads the previous display.  First conjunct: after a load, every
sequence of editor events leaves the original buffer exactly as captured at
load time.  Second conjunct: recomputing with unchanged parameters reproduces
the same state (filters are not cumulative).  Third conjunct: the recomputed
display buffer is independent of whatever was displayed before. -/
theorem updateImage_reads_untouched_original :
    (∀ (img : List ℝ) (ops : List EditorAction),
        (applyActions ops (freshLoad img)).originalImageData = some img) ∧
    (∀ s : ToolState, updateImage (updateImage s) = updateImage s) ∧
    (∀ (s : ToolState) (orig d : List ℝ), s.originalImageData = some orig →
        (updateImage { s with displayData := d }).displayData =
          (updateImage s).displayData) := by
  refine ⟨?_, ?_, ?_⟩
  · intro img ops
    rw [applyActions_originalImageData, freshLoad_originalImageData]
  · intro s
    obtain ⟨o, d, bs, cs, es, zs, zl, px, py⟩ := s
    cases o <;> rfl
  · intro s orig d h
    obtain ⟨o, d0, bs, cs, es, zs, zl, px, py⟩ := s
    simp only at h
    subst h
    rfl

/-- Witness for claim C7: one brightness event on a fresh load keeps the
original buffer; recomputation is idempotent and display-independent on a
concrete state. -/
theorem updateImage_reads_untouched_original_witness :
    (applyActions [EditorAction.setBrightness 40]
      (freshLoad [100, 100, 100, 255])).originalImageData =
      some [100, 100, 100, 255] ∧
    updateImage (updateImage (⟨some [100], [5], 1, 2, 3, 1, 1, 0, 0⟩ : ToolState)) =
      updateImage (⟨some [100], [5], 1, 2, 3, 1, 1, 0, 0⟩ : ToolState) ∧
    (updateImage { (⟨some [100], [5], 1, 2, 3, 1, 1, 0, 0⟩ : ToolState) with
        displayData := [9] }).displayData =
      (updateImage (⟨some [100], [5], 1, 2, 3, 1, 1, 0, 0⟩ : ToolState)).displayData :=
  ⟨updateImage_reads_untouched_original.1 [100, 100, 100, 255]
      [EditorAction.setBrightness 40],
    updateImage_reads_untouched_original.2.1 _,
    updateImage_reads_untouched_original.2.2 _ [100] [9] rfl⟩

theorem handleWheel_zoom_bounds (d : Bool) (mx my : ℝ) (s : ToolState) :
    0.5 ≤ (handleWheel d mx my s).zoomLevel ∧ (handleWheel d mx my s).zoomLevel ≤ 3 := by
  constructor
  · show (0.5 : ℝ) ≤ max 0.5 (min 3 (s.zoomLevel + if d then -0.1 else 0.1))
    exact le_max_left _ _
  · show max 0.5 (min 3 (s.zoomLevel + if d then -0.1 else 0.1)) ≤ 3
    exact max_le (by norm_num) (min_le_left _ _)

theorem applyWheels_zoom_bounds : ∀ (ws : List (Bool × ℝ × ℝ)) (s : ToolState),
    0.5 ≤ s.zoomLevel → s.zoomLevel ≤ 3 →
    0.5 ≤ (applyWheels ws s).zoomLevel ∧ (applyWheels ws s).zoomLevel ≤ 3
  | [], _, h1, h2 => ⟨h1, h2⟩
  | w :: ws, s, _, _ => by
      show 0.5 ≤ (applyWheels ws (handleWheel w.1 w.2.1 w.2.2 s)).zoomLevel ∧ _
      exact applyWheels_zoom_bounds ws _ (handleWheel_zoom_bounds w.1 w.2.1 w.2.2 s).1
        (handleWheel_zoom_bounds w.1 w.2.1 w.2.2 s).2

/-- Claim C8: starting from a fresh load (zoom 1), after every sequence of
wheel events — any number of steps in either direction — the zoom level kept
by the wheel handler lies in `[0.5, 3]`. -/
theorem wheel_zoom_clamped (img : List ℝ) (ws : List (Bool × ℝ × ℝ)) :
    0.5 ≤ (applyWheels ws (freshLoad img)).zoomLevel ∧
      (applyWheels ws (freshLoad img)).zoomLevel ≤ 3 :=
  applyWheels_zoom_bounds ws (freshLoad img)
    (by rw [freshLoad_zoomLevel]; norm_num)
    (by rw [freshLoad_zoomLevel]; norm_num)

/-! ## Lemmas about the image relay -/

theorem lookupStore_cons (k : ℕ) (r : ImageRecord) (rest : List (ℕ × ImageRecord))
    (key : ℕ) : lookupStore ((k, r) :: rest) key =
      if k = key then some r else lookupStore rest key := rfl

theorem insertStore_cons (k : ℕ) (r : ImageRecord) (rest : List (ℕ × ImageRecord))
    (key : ℕ) (rec : ImageRecord) : insertStore ((k, r) :: rest) key rec =
      if k = key then (key, rec) :: rest else (k, r) :: insertStore rest key rec := rfl

theorem eraseStore_cons (k : ℕ) (r : ImageRecord) (rest : List (ℕ × ImageRecord))
    (key : ℕ) : eraseStore ((k, r) :: rest) key =
      if k = key then eraseStore rest key else (k, r) :: eraseStore rest key := rfl

theorem purgeStore_cons (k : ℕ) (r : ImageRecord) (rest : List (ℕ × ImageRecord))
    (now : ℕ) : purgeStore ((k, r) :: rest) now =
      if r.timestamp < now - 3600000 then purgeStore rest now
      else (k, r) :: purgeStore rest now := rfl

theorem lookupStore_eraseStore : ∀ (st : List (ℕ × ImageRecord)) (key : ℕ),
    lookupStore (eraseStore st key) key = none
  | [], _ => rfl
  | (k, r) :: rest, key => by
      rw [eraseStore_cons]
      by_cases hk : k = key
      · rw [if_pos hk]
        exact lookupStore_eraseStore rest key
      · rw [if_neg hk, lookupStore_cons, if_neg hk]
        exact lookupStore_eraseStore rest key

theorem lookupStore_purgeStore_none : ∀ (st : List (ℕ × ImageRecord)) (key now : ℕ),
    (∀ p ∈ st, p.1 = key → p.2.timestamp < now - 3600000) →
    lookupStore (purgeStore st now) key = none
  | [], _, _, _ => rfl
  | (k, r) :: rest, key, now, h => by
      have hrest : ∀ p ∈ rest, p.1 = key → p.2.timestamp < now - 3600000 :=
        fun p hp hpk => h p (List.mem_cons_of_mem _ hp) hpk
      rw [purgeStore_cons]
      by_cases hts : r.timestamp < now - 3600000
      · rw [if_pos hts]
        exact lookupStore_purgeStore_none rest key now hrest
      · rw [if_neg hts, lookupStore_cons]
        have hk : k ≠ key := fun hkk => hts (h (k, r) (List.mem_cons_self _ _) hkk)
        rw [if_neg hk]
        exact lookupStore_purgeStore_none rest key now hrest

theorem mem_insertStore : ∀ (st : List (ℕ × ImageRecord)) (key : ℕ) (rec : ImageRecord)
    (p : ℕ × ImageRecord), p ∈ insertStore st key rec → p ∈ st ∨ p = (key, rec)
  | [], key, rec, p, hp => by
      exact Or.inr (List.mem_singleton.mp hp)
  | (k, r) :: rest, key, rec, p, hp => by
      rw [insertStore_cons] at hp
      by_cases hk : k = key
      · rw [if_pos hk] at hp
        rcases List.mem_cons.mp hp with h1 | h1
        · exact Or.inr h1
        · exact Or.inl (List.mem_cons_of_mem _ h1)
      · rw [if_neg hk] at hp
        rcases List.mem_cons.mp hp with h1 | h1
        · refine Or.inl ?_
          rw [h1]
          exact List.mem_cons_self _ _
        · rcases mem_insertStore rest key rec p h1 with h2 | h2
          · exact Or.inl (List.mem_cons_of_mem _ h2)
          · exact Or.inr h2

theorem lookupStore_unique : ∀ (st : List (ℕ × ImageRecord)) (key : ℕ)
    (rec : ImageRecord), (st.map Prod.fst).Nodup → lookupStore st key = some rec →
    ∀ p ∈ st, p.1 = key → p.2 = rec
  | [], _, _, _, _, _, hp, _ => absurd hp (List.not_mem_nil _)
  | (k, r) :: rest, key, rec, hnd, hl, p, hp, hpk => by
      rw [List.map_cons, List.nodup_cons] at hnd
      rw [lookupStore_cons] at hl
      by_cases hk : k = key
      · rw [if_pos hk] at hl
        rcases List.mem_cons.mp hp with h1 | h1
        · rw [h1]
          exact Option.some.inj hl
        · exfalso
          apply hnd.1
          rw [hk, ← hpk]
          exact List.mem_map.mpr ⟨p, h1, rfl⟩
      · rw [if_neg hk] at hl
        rcases List.mem_cons.mp hp with h1 | h1
        · exfalso
          apply hk
          rw [h1] at hpk
          exact hpk
        · exact lookupStore_unique rest key rec hnd.2 hl p h1 hpk

theorem routeImage_none (env : TabEnv) (imageKey srcTab : ℕ) (s : RelayState)
    (h : s.toolTabId = none) :
    routeImage env imageKey srcTab s =
      ({ s with toolTabId := some env.newTabId },
        [Effect.createdTab env.newTabId imageKey srcTab]) := by
  unfold routeImage
  rw [h]

theorem routeImage_live (env : TabEnv) (imageKey srcTab : ℕ) (s : RelayState) (t : ℕ)
    (h : s.toolTabId = some t) (ha : env.alive t = true) (hu : env.isToolUrl t = true) :
    routeImage env imageKey srcTab s =
      (s, [Effect.sentLoadNewImage t imageKey srcTab, Effect.focusedTab t]) := by
  unfold routeImage
  rw [h]
  simp [ha, hu]

theorem registerImage_no_tab (env : TabEnv) (now srcTab : ℕ) (b64 : String)
    (s : RelayState) (h : s.toolTabId = none) :
    (registerImage env now srcTab b64 s).2 =
      [Effect.createdTab env.newTabId now srcTab] ∧
    (registerImage env now srcTab b64 s).1.toolTabId = some env.newTabId := by
  have h2 : (⟨purgeStore (insertStore s.store now ⟨b64, srcTab, now⟩) now,
      s.toolTabId⟩ : RelayState).toolTabId = none := h
  unfold registerImage
  dsimp only
  rw [routeImage_none env now srcTab _ h2]
  exact ⟨rfl, rfl⟩

theorem registerImage_existing_live (env : TabEnv) (now srcTab : ℕ) (b64 : String)
    (s : RelayState) (t : ℕ) (h : s.toolTabId = some t)
    (ha : env.alive t = true) (hu : env.isToolUrl t = true) :
    (registerImage env now srcTab b64 s).2 =
      [Effect.sentLoadNewImage t now srcTab, Effect.focusedTab t] ∧
    (registerImage env now srcTab b64 s).1.toolTabId = some t := by
  have h2 : (⟨purgeStore (insertStore s.store now ⟨b64, srcTab, now⟩) now,
      s.toolTabId⟩ : RelayState).toolTabId = some t := h
  unfold registerImage
  dsimp only
  rw [routeImage_live env now srcTab _ t h2 ha hu]
  exact ⟨rfl, h⟩

theorem routeImage_store (env : TabEnv) (imageKey srcTab : ℕ) (s : RelayState) :
    (routeImage env imageKey srcTab s).1.store = s.store := by
  unfold routeImage
  rcases s.toolTabId with _ | t
  · rfl
  · by_cases ha : env.alive t
    · by_cases hu : env.isToolUrl t
      · simp [ha, hu]
      · simp [ha, hu]
    · simp [ha]

/-- Claim C3: a `ready` request on a stored key returns the stored payload
and originating tab id and deletes the record, so an identical second request
observes `NotFound` (`success: false` with the not-found/expired reason). -/
theorem fetchByKey_at_most_once (s : RelayState) (key : ℕ) (rec : ImageRecord)
    (h : lookupStore s.store key = some rec) :
    (handleReady key s).2 = ReadyResponse.success rec.base64 rec.sourceTabId ∧
    lookupStore (handleReady key s).1.store key = none ∧
    (handleReady key (handleReady key s).1).2 =
      ReadyResponse.failure "Image data not found or expired" := by
  have h1 : handleReady key s =
      ({ s with store := eraseStore s.store key },
        ReadyResponse.success rec.base64 rec.sourceTabId) := by
    unfold handleReady
    rw [h]
  rw [h1]
  refine ⟨rfl, lookupStore_eraseStore _ _, ?_⟩
  unfold handleReady
  have h2 : lookupStore ({ s with store := eraseStore s.store key } :
      RelayState).store key = none := lookupStore_eraseStore _ _
  rw [h2]

/-- Witness for claim C3 on a one-record store. -/
theorem fetchByKey_at_most_once_witness :
    (handleReady 5 ⟨[(5, ⟨"b64", 9, 42⟩)], some 3⟩).2 =
      ReadyResponse.success "b64" 9 ∧
    lookupStore (handleReady 5 ⟨[(5, ⟨"b64", 9, 42⟩)], some 3⟩).1.store 5 = none ∧
    (handleReady 5 (handleReady 5 ⟨[(5, ⟨"b64", 9, 42⟩)], some 3⟩).1).2 =
      ReadyResponse.failure "Image data not found or expired" :=
  fetchByKey_at_most_once ⟨[(5, ⟨"b64", 9, 42⟩)], some 3⟩ 5 ⟨"b64", 9, 42⟩ rfl

/-- Claim C10: a `ready` request whose key is absent from the store answers
`success: false` and leaves the whole relay state — store and tracked tool
tab — unchanged. -/
theorem ready_missing_key_noop (s : RelayState) (key : ℕ)
    (h : lookupStore s.store key = none) :
    handleReady key s = (s, ReadyResponse.failure "Image data not found or expired") := by
  unfold handleReady
  rw [h]

/-- Witness for claim C10: key 2 is absent from a store holding only key 5. -/
theorem ready_missing_key_noop_witness :
    handleReady 2 ⟨[(5, ⟨"x", 1, 10⟩)], some 3⟩ =
      (⟨[(5, ⟨"x", 1, 10⟩)], some 3⟩,
        ReadyResponse.failure "Image data not found or expired") :=
  ready_missing_key_noop ⟨[(5, ⟨"x", 1, 10⟩)], some 3⟩ 2 rfl

/-- Claim C4: starting from a relay with no tracked tool tab, registering a
first image creates the tool tab; registering a second image while that tab
is live and still on the tool page creates no further tab — exactly one tab
is created across both registrations — and instead sends `loadNewImage` with
the new key into the existing tab and focuses it upon which it stays the
tracked tab. -/
theorem register_twice_single_tab
    (env1 env2 : TabEnv) (s0 : RelayState)
    (now1 src1 now2 src2 : ℕ) (b1 b2 : String)
    (h0 : s0.toolTabId = none)
    (halive : env2.alive env1.newTabId = true)
    (hurl : env2.isToolUrl env1.newTabId = true) :
    countCreatedTabs (registerImage env1 now1 src1 b1 s0).2 +
      countCreatedTabs (registerImage env2 now2 src2 b2
        (registerImage env1 now1 src1 b1 s0).1).2 = 1 ∧
    (registerImage env2 now2 src2 b2 (registerImage env1 now1 src1 b1 s0).1).2 =
      [Effect.sentLoadNewImage env1.newTabId now2 src2,
        Effect.focusedTab env1.newTabId] ∧
    (registerImage env2 now2 src2 b2
      (registerImage env1 now1 src1 b1 s0).1).1.toolTabId = some env1.newTabId := by
  obtain ⟨e1, t1⟩ := registerImage_no_tab env1 now1 src1 b1 s0 h0
  obtain ⟨e2, t2⟩ := registerImage_existing_live env2 now2 src2 b2
    (registerImage env1 now1 src1 b1 s0).1 env1.newTabId t1 halive hurl
  refine ⟨?_, e2, t2⟩
  rw [e1, e2]
  rfl

/-- Witness for claim C4: an always-live, always-on-tool-page tab world where
the first registration creates tab 7 and the second routes into it. -/
theorem register_twice_single_tab_witness :
    countCreatedTabs (registerImage ⟨fun _ => true, fun _ => true, 7⟩ 10 2 "a"
      ⟨[], none⟩).2 +
      countCreatedTabs (registerImage ⟨fun _ => true, fun _ => true, 7⟩ 11 3 "b"
        (registerImage ⟨fun _ => true, fun _ => true, 7⟩ 10 2 "a" ⟨[], none⟩).1).2 = 1 ∧
    (registerImage ⟨fun _ => true, fun _ => true, 7⟩ 11 3 "b"
      (registerImage ⟨fun _ => true, fun _ => true, 7⟩ 10 2 "a" ⟨[], none⟩).1).2 =
      [Effect.sentLoadNewImage 7 11 3, Effect.focusedTab 7] ∧
    (registerImage ⟨fun _ => true, fun _ => true, 7⟩ 11 3 "b"
      (registerImage ⟨fun _ => true, fun _ => true, 7⟩ 10 2 "a" ⟨[], none⟩).1).1.toolTabId =
      some 7 :=
  register_twice_single_tab ⟨fun _ => true, fun _ => true, 7⟩
    ⟨fun _ => true, fun _ => true, 7⟩ ⟨[], none⟩ 10 2 11 3 "a" "b" rfl rfl rfl

/-- Claim C9 (corrected; counterexample): a record stored at millisecond 1 is
far older than the one-hour retention window by the time `7200000`, yet with
no intervening registration a `ready` request on its key still succeeds with
the stored payload — the code never purges on the fetch path, so the claim's
`NotFound` does not happen. -/
theorem expired_fetch_succeeds_counterexample :
    1 < 7200000 - 3600000 ∧
    (handleReady 1 ⟨[(1, ⟨"img", 2, 1⟩)], none⟩).2 = ReadyResponse.success "img" 2 := by
  constructor
  · norm_num
  · rfl

/-- Claim C9 (amended): the purge runs only as the sweep inside a subsequent
registration: once any registration happens at time `now`, every record older
than `now - 3600000` is removed (here: the unique record under `key`, with
`key` different from the fresh key `now`), and a `ready` request on that key
then reports `NotFound`. -/
theorem register_purges_expired
    (env : TabEnv) (s : RelayState) (key : ℕ) (rec : ImageRecord)
    (now srcTab : ℕ) (b64 : String)
    (hnd : (s.store.map Prod.fst).Nodup)
    (hl : lookupStore s.store key = some rec)
    (hexp : rec.timestamp < now - 3600000)
    (hk : key ≠ now) :
    lookupStore (registerImage env now srcTab b64 s).1.store key = none ∧
    (handleReady key (registerImage env now srcTab b64 s).1).2 =
      ReadyResponse.failure "Image data not found or expired" := by
  have hstore : (registerImage env now srcTab b64 s).1.store =
      purgeStore (insertStore s.store now ⟨b64, srcTab, now⟩) now := by
    unfold registerImage
    rw [routeImage_store]
  have hnone : lookupStore (purgeStore (insertStore s.store now
      ⟨b64, srcTab, now⟩) now) key = none := by
    apply lookupStore_purgeStore_none
    intro p hp hpk
    rcases mem_insertStore s.store now ⟨b64, srcTab, now⟩ p hp with h1 | h1
    · rw [lookupStore_unique s.store key rec hnd hl p h1 hpk]
      exact hexp
    · exact absurd (hpk ▸ congrArg Prod.fst h1) hk
  refine ⟨hstore ▸ hnone, ?_⟩
  unfold handleReady
  rw [hstore, hnone]

/-- Witness for claim C9 (amended): the record stored at millisecond 1 is
gone after a registration at time `7200000`, and the follow-up `ready`
request fails. -/
theorem register_purges_expired_witness :
    lookupStore (registerImage ⟨fun _ => true, fun _ => true, 99⟩ 7200000 3 "new"
      ⟨[(1, ⟨"img", 2, 1⟩)], none⟩).1.store 1 = none ∧
    (handleReady 1 (registerImage ⟨fun _ => true, fun _ => true, 99⟩ 7200000 3 "new"
      ⟨[(1, ⟨"img", 2, 1⟩)], none⟩).1).2 =
      ReadyResponse.failure "Image data not found or expired" :=
  register_purges_expired ⟨fun _ => true, fun _ => true, 99⟩
    ⟨[(1, ⟨"img", 2, 1⟩)], none⟩ 1 ⟨"img", 2, 1⟩ 7200000 3 "new"
    (by simp) rfl (by norm_num) (by norm_num)

end BrightTweaker
